import Mathlib

/-!
Verification of the blood-marker extraction core of the `aman-ai` backend
(`backend/app/services/blood_nlp_extractor.py`, `backend/app/services/pdf_parser.py`,
`backend/app/api/endpoints/blood.py`).

The Python code is shallowly embedded: regex patterns are translated to
executable matching functions with Python `re` semantics (leftmost start
position wins; alternatives are tried in listed order with backtracking;
quantifiers are greedy), floats are modelled by `ℚ` (all numbers in play are
finite decimals), strings by `String` / `List Char`, and the mutable
`BloodAnalysisExtraction` dataclass by a record with a marker-slot map.
Case-insensitive matching (`re.IGNORECASE`) is modelled by folding both sides
through `toLowerChar` (ASCII A–Z and Cyrillic А–Я/Ё, the alphabets appearing
in the pattern tables).
-/

/-- Python `\s` (ASCII part): space, tab, newline, carriage return, vertical tab, form feed. -/
def isSpaceChar (c : Char) : Bool :=
  c = ' ' || c = '\t' || c = '\n' || c = '\r' || c.toNat = 11 || c.toNat = 12

/-- Python `\d` (ASCII digits, as produced by the reports). -/
def isDigitChar (c : Char) : Bool :=
  '0' ≤ c && c ≤ '9'

/-- Unicode lowercasing restricted to the alphabets used by the extractor's
patterns: ASCII `A`–`Z`, Cyrillic `А`–`Я` (U+0410–U+042F) and `Ё` (U+0401). -/
def toLowerChar (c : Char) : Char :=
  if 'A' ≤ c && c ≤ 'Z' then Char.ofNat (c.toNat + 32)
  else if 0x410 ≤ c.toNat && c.toNat ≤ 0x42F then Char.ofNat (c.toNat + 0x20)
  else if c.toNat = 0x401 then Char.ofNat 0x451
  else c

/-- Characters of the unit-token class `[a-zа-яёµ%\^\d\*\/\.\-]` (with
`re.IGNORECASE`, so upper-case letters are folded first). -/
def isUnitChar (c : Char) : Bool :=
  let c := toLowerChar c
  ('a' ≤ c && c ≤ 'z') || ('а' ≤ c && c ≤ 'я') || c = 'ё' || c = 'µ' || c = '%' ||
    c = '^' || isDigitChar c || c = '*' || c = '/' || c = '.' || c = '-'

/-- Range separator class `[-–—]`. -/
def isDashChar (c : Char) : Bool :=
  c = '-' || c = '–' || c = '—'

def dropSpacesL (s : List Char) : List Char :=
  s.dropWhile isSpaceChar

/-- Python `str.strip()`. -/
def stripChars (s : List Char) : List Char :=
  ((s.dropWhile isSpaceChar).reverse.dropWhile isSpaceChar).reverse

def lowerList (s : List Char) : List Char :=
  s.map toLowerChar

/-- `str.splitlines()` restricted to `\n` separators (the spec guarantees the
input text has been stripped of carriage returns before extraction).
A trailing empty piece differs from Python, but empty lines are filtered out
by the caller in both. -/
def splitLinesAux : List Char → List Char → List (List Char)
  | [], acc => [acc.reverse]
  | c :: rest, acc =>
    if c = '\n' then acc.reverse :: splitLinesAux rest []
    else splitLinesAux rest (c :: acc)

def splitLines (s : List Char) : List (List Char) :=
  splitLinesAux s []

/-- Case-insensitively consume the literal `lit` at the head of `s`,
returning the rest of `s`.  `lit` is stored lower-case in the pattern tables. -/
def dropLitCI : List Char → List Char → Option (List Char)
  | [], s => some s
  | _ :: _, [] => none
  | l :: ls, c :: cs => if toLowerChar c = toLowerChar l then dropLitCI ls cs else none

/-- Case-insensitive substring occurrence (models `re.search` of an escaped
literal pattern compiled with `re.IGNORECASE`). -/
def occursCI (pat : List Char) : List Char → Bool
  | [] => (dropLitCI pat []).isSome
  | s@(_ :: t) => (dropLitCI pat s).isSome || occursCI pat t

/-- Greedy match of `\d+(?:[.,]\d+)?` at the head of `s`: the captured digit
string (decimal separator included) and the rest.  `none` if `s` does not
start with a digit. -/
def numFull (s : List Char) : Option (List Char × List Char) :=
  let ds := s.takeWhile isDigitChar
  let rest := s.dropWhile isDigitChar
  if ds = [] then none
  else
    match rest with
    | c :: c2 :: r2 =>
      if (c = '.' || c = ',') && isDigitChar c2 then
        let frac := (c2 :: r2).takeWhile isDigitChar
        some (ds ++ c :: frac, (c2 :: r2).dropWhile isDigitChar)
      else some (ds, rest)
    | _ => some (ds, rest)

/-- Backtracking alternatives for `\d+(?:[.,]\d+)?` when a further pattern
element follows: the greedy match first, then (when a fractional part was
taken) the integer-only match. -/
def numCands (s : List Char) : List (List Char × List Char) :=
  let ds := s.takeWhile isDigitChar
  let rest := s.dropWhile isDigitChar
  if ds = [] then []
  else
    match rest with
    | c :: c2 :: r2 =>
      if (c = '.' || c = ',') && isDigitChar c2 then
        let frac := (c2 :: r2).takeWhile isDigitChar
        [(ds ++ c :: frac, (c2 :: r2).dropWhile isDigitChar), (ds, rest)]
      else [(ds, rest)]
    | _ => [(ds, rest)]

/-- The exact rational `m / 10^e`, i.e. the decimal literal with mantissa `m`
and `e` fractional digits.  Built with `mkRat` so that it evaluates inside the
kernel (the `Rat` arithmetic operations of the ambient library are
`@[irreducible]`); `qscale_eq` below identifies it with `m / 10^e : ℚ`. -/
def qscale (m : ℤ) (e : ℕ) : ℚ :=
  mkRat m (10 ^ e)

/-- Kernel-computable multiplication on `ℚ`; `qmul_eq` identifies it with `*`. -/
def qmul (a b : ℚ) : ℚ :=
  mkRat (a.num * b.num) (a.den * b.den)

def digitsToNat (ds : List Char) : ℕ :=
  ds.foldl (fun acc c => acc * 10 + (c.toNat - 48)) 0

/-- `BloodNLPExtractor._parse_float`: `float(value_str.replace(",", "."))`
on the digit strings produced by the value/range captures
(shape `\d+([.,]\d+)?`); any other shape fails to parse and yields `none`,
mirroring the `try/except` in the source. -/
def parseFloat (s : List Char) : Option ℚ :=
  let ds := s.takeWhile isDigitChar
  let rest := s.dropWhile isDigitChar
  if ds = [] then none
  else
    match rest with
    | [] => some (qscale (digitsToNat ds) 0)
    | c :: frac =>
      if (c = '.' || c = ',') && frac ≠ [] && frac.all isDigitChar then
        some (qscale (digitsToNat ds * 10 ^ frac.length + digitsToNat frac) frac.length)
      else none

/-- One match of a compiled per-marker alias pattern
`(alias1|alias2|...)\s*[:\-]?\s*(?P<value>\d+(?:[.,]\d+)?)\s*(?P<unit>[...]+)?`:
the captured value digits, the optional captured unit token, `group(0)`, and
the rest of the input after `match.end()`. -/
structure AliasMatch where
  valueStr : List Char
  unitStr : Option (List Char)
  group0 : List Char
  restAfter : List Char
deriving DecidableEq, Repr

/-- The tail of the alias pattern after the alias alternative:
`\s*[:\-]?\s*(?P<value>...)\s*(?P<unit>...)?`.  Each quantifier here is
deterministic (shrinking a greedy `\s*` can never enable a later element),
so no backtracking is needed inside the tail. -/
def aliasTail (s : List Char) : Option (List Char × Option (List Char) × List Char) :=
  let s1 := dropSpacesL s
  let s2 :=
    match s1 with
    | c :: r => if c = ':' || c = '-' then r else s1
    | [] => s1
  let s3 := dropSpacesL s2
  match numFull s3 with
  | none => none
  | some (val, r1) =>
    let r2 := dropSpacesL r1
    let unitRun := r2.takeWhile isUnitChar
    if unitRun = [] then some (val, none, r2)
    else some (val, some unitRun, r2.dropWhile isUnitChar)

/-- Try the alias alternatives in listed order at a fixed position
(Python alternation backtracks into the next alternative when the tail
fails after a shorter alias matched). -/
def aliasTryAt (aliases : List (List Char)) (s : List Char) :
    Option (List Char × Option (List Char) × List Char) :=
  match aliases with
  | [] => none
  | a :: rest =>
    match dropLitCI a s with
    | some r =>
      match aliasTail r with
      | some m => some m
      | none => aliasTryAt rest s
    | none => aliasTryAt rest s

/-- `pattern.search(...)` for a per-marker alias pattern: the leftmost start
position at which some alternative (in order) completes wins. -/
def aliasSearch (aliases : List (List Char)) : List Char → Option AliasMatch
  | [] => none
  | s@(_ :: t) =>
    match aliasTryAt aliases s with
    | some (val, u, rest) =>
      some ⟨val, u, s.take (s.length - rest.length), rest⟩
    | none => aliasSearch aliases t

/-- Labels of `ref_range_pattern_labeled`, in alternation order. -/
def labelWords : List (List Char) :=
  ["норма", "ref", "reference", "референс", "нормасы"].map String.toList

/-- `min - max` with `\s*[-–—]\s*` in between; the `min` capture backtracks
out of its fractional part when the dash test fails. -/
def numDashNum (s : List Char) : Option (List Char × List Char) :=
  (numCands s).findSome? fun (mn, r1) =>
    match dropSpacesL r1 with
    | d :: r3 =>
      if isDashChar d then
        match numFull (dropSpacesL r3) with
        | some (mx, _) => some (mn, mx)
        | none => none
      else none
    | [] => none

/-- `ref_range_pattern_labeled.search`:
`(?:норма|ref|reference|референс|нормасы)[:\s]*(?P<min>...)\s*[-–—]\s*(?P<max>...)`. -/
def labeledSearch : List Char → Option (List Char × List Char)
  | [] => none
  | s@(_ :: t) =>
    match labelWords.findSome? (fun w =>
        match dropLitCI w s with
        | some r => numDashNum (r.dropWhile (fun c => c = ':' || isSpaceChar c))
        | none => none) with
    | some m => some m
    | none => labeledSearch t

/-- Optional trailing unit tokens of `ref_range_pattern_simple`:
`(?:\s*(?:ммоль|мкмоль|г|мг|ед|u|g|mg|mmol)?(?:/л|/l)?)?$`.  After stripping
leading whitespace the remainder must be exactly one of the finitely many
word/slash-suffix combinations (the empty combination included). -/
def simpleTailCombos : List (List Char) :=
  (["ммоль", "мкмоль", "г", "мг", "ед", "u", "g", "mg", "mmol", ""].map String.toList).flatMap
    fun u => (["/л", "/l", ""].map String.toList).map fun sl => u ++ sl

def simpleTailOK (r : List Char) : Bool :=
  simpleTailCombos.any fun c => lowerList (dropSpacesL r) = c

/-- One attempt of `ref_range_pattern_simple` at a fixed position:
`(?:\()?(?P<min>...)\s*[-–—]\s*(?P<max>...)(?:\))?(?:\s*(?:unit)?(?:/л|/l)?)?$`.
The `max` capture backtracks out of its fractional part against the tail. -/
def simpleAt (s : List Char) : Option (List Char × List Char) :=
  let s1 := match s with
    | '(' :: r => r
    | _ => s
  (numCands s1).findSome? fun (mn, r1) =>
    match dropSpacesL r1 with
    | d :: r3 =>
      if isDashChar d then
        (numCands (dropSpacesL r3)).findSome? fun (mx, r5) =>
          let r6 := match r5 with
            | ')' :: rr => rr
            | _ => r5
          if simpleTailOK r6 then some (mn, mx) else none
      else none
    | [] => none

def simpleSearch : List Char → Option (List Char × List Char)
  | [] => none
  | s@(_ :: t) =>
    match simpleAt s with
    | some m => some m
    | none => simpleSearch t

/-- `ref_range_pattern_single.search`: `(?P<op>[<>≤≥])\s*(?P<val>\d+(?:[.,]\d+)?)`. -/
def singleSearch : List Char → Option (Char × List Char)
  | [] => none
  | c :: t =>
    if c = '<' || c = '>' || c = '≤' || c = '≥' then
      match numFull (dropSpacesL t) with
      | some (v, _) => some (c, v)
      | none => singleSearch t
    else singleSearch t

/-- One `алт/аст x/y` combined match: the two captured digit strings and the
rest of the input after `match.end()` (for `finditer` continuation), plus
`group(0)`. -/
structure AltAstMatch where
  altStr : List Char
  astStr : List Char
  group0 : List Char
  restAfter : List Char
deriving DecidableEq, Repr

/-- One attempt of `alt_ast_pattern` at a fixed position:
`(?:алт|alt)\s*/\s*(?:аст|ast)[^\d]*(?P<alt>...)\s*/\s*(?P<ast>...)`.
`[^\d]*` can only stop at the first digit, and the `alt` capture backtracks
out of its fractional part against the following `/`. -/
def altAstAt (s : List Char) : Option AltAstMatch :=
  let headAlt := match dropLitCI "алт".toList s with
    | some r => some r
    | none => dropLitCI "alt".toList s
  match headAlt with
  | none => none
  | some r1 =>
    match dropSpacesL r1 with
    | '/' :: r2 =>
      let r3 := dropSpacesL r2
      let headAst := match dropLitCI "аст".toList r3 with
        | some r => some r
        | none => dropLitCI "ast".toList r3
      match headAst with
      | none => none
      | some r4 =>
        let r5 := r4.dropWhile (fun c => !isDigitChar c)
        match (numCands r5).findSome? (fun (av, ar) =>
            match dropSpacesL ar with
            | '/' :: ar2 =>
              match numFull (dropSpacesL ar2) with
              | some (bv, br) => some (av, bv, br)
              | none => none
            | _ => none) with
        | some (av, bv, br) =>
          some ⟨av, bv, s.take (s.length - br.length), br⟩
        | none => none
    | _ => none

/-- `alt_ast_pattern.finditer(text)`: repeated non-overlapping leftmost
search, each next scan starting at the previous `match.end()`. -/
def altAstScan : Nat → List Char → List AltAstMatch
  | 0, _ => []
  | _, [] => []
  | fuel + 1, s@(_ :: t) =>
    match altAstAt s with
    | some m => m :: altAstScan fuel m.restAfter
    | none => altAstScan fuel t

def altAstFindAll (s : List Char) : List AltAstMatch :=
  altAstScan s.length s

/-- `MARKER_ALIASES`, in the source's (insertion) order. -/
def MARKER_ALIASES : List (String × List String) := [
  ("hemoglobin", ["hemoglobin", "hgb", "hb", "гемоглобин", "гемоглобин"]),
  ("rbc", ["rbc", "erythrocytes", "red blood cells", "эритроциты", "эритроциттер", "эр."]),
  ("wbc", ["wbc", "leukocytes", "white blood cells", "лейкоциты", "лейкоциттер", "лейк."]),
  ("platelets", ["platelets", "plt", "thrombocytes", "тромбоциты", "тромбоциттер"]),
  ("hematocrit", ["hematocrit", "hct", "ht", "гематокрит"]),
  ("mcv", ["mcv", "mean cell volume", "средний объем эритроцита", "ср. объем эритр."]),
  ("mch", ["mch", "mean cell hemoglobin", "ср. содерж. гемоглобина", "ср. сод. hb"]),
  ("mchc", ["mchc", "ср. конц. гемоглобина"]),
  ("rdw", ["rdw", "rdw-cv", "rdw-sd", "ширина распределения"]),
  ("mpv", ["mpv", "mean platelet volume", "средний объем тромбоцита"]),
  ("esr", ["esr", "sed rate", "соэ", "этж", "скорость оседания"]),
  ("neutrophils", ["neutrophils", "neut", "neu", "нейтрофилы", "нейтрофил"]),
  ("lymphocytes", ["lymphocytes", "lymph", "lym", "лимфоциты", "лимфоцит"]),
  ("monocytes", ["monocytes", "mono", "моноциты", "моноцит"]),
  ("eosinophils", ["eosinophils", "eos", "эозинофилы", "эозинофил"]),
  ("basophils", ["basophils", "baso", "базофилы", "базофил"]),
  ("glucose", ["glucose", "glu", "глюкоза", "глюк.", "сахар крови", "қан қанты"]),
  ("hba1c", ["hba1c", "a1c", "гликированный гемоглобин", "гликогемоглобин", "гликированный hb", "гликированный", "hba1c (гликированный"]),
  ("insulin", ["insulin", "инсулин"]),
  ("cholesterol", ["cholesterol", "chol", "холестерин", "общий холестерин", "холестерол"]),
  ("hdl", ["hdl", "hdl-c", "hdl cholesterol", "лпвп", "лпвп-холестерин", "хс-лпвп", "холестерин-лпвп"]),
  ("ldl", ["ldl", "ldl-c", "ldl cholesterol", "лпнп", "лпнп-холестерин", "хс-лпнп", "холестерин-лпнп", "хс лпнп"]),
  ("vldl", ["vldl", "лпонп", "холестерин не-лпвп", "не-лпвп"]),
  ("triglycerides", ["triglycerides", "tg", "триглицериды", "триг."]),
  ("alt", ["alt", "sgpt", "alanine aminotransferase", "алт", "аланинаминотрансфераза"]),
  ("ast", ["ast", "sgot", "aspartate aminotransferase", "аст", "аспартатаминотрансфераза"]),
  ("ggt", ["ggt", "gamma-gt", "ггт", "гамма-глутамилтрансфераза"]),
  ("alp", ["alp", "alkaline phosphatase", "щелочная фосфатаза", "щф"]),
  ("bilirubin_total", ["total bilirubin", "tbil", "билирубин общий", "общий билирубин"]),
  ("bilirubin_direct", ["direct bilirubin", "dbil", "билирубин прямой", "прямой билирубин"]),
  ("albumin", ["albumin", "alb", "альбумин"]),
  ("total_protein", ["total protein", "tp", "общий белок", "белок общий"]),
  ("creatinine", ["creatinine", "crea", "cr", "креатинин"]),
  ("urea", ["urea", "bun", "мочевина"]),
  ("uric_acid", ["uric acid", "ua", "мочевая кислота"]),
  ("gfr", ["gfr", "egfr", "скф", "скорость клубочковой фильтрации"]),
  ("cystatin_c", ["cystatin c", "cystatin", "цистатин с", "цистатин"]),
  ("sodium", ["sodium", "na", "натрий"]),
  ("potassium", ["potassium", "k", "калий"]),
  ("chloride", ["chloride", "cl", "хлор", "хлориды", "хлор na"]),
  ("calcium", ["calcium", "ca", "кальций"]),
  ("magnesium", ["magnesium", "mg", "магний"]),
  ("phosphorus", ["phosphorus", "phos", "p", "фосфор"]),
  ("iron", ["iron", "fe", "железо", "сывороточное железо"]),
  ("ferritin", ["ferritin", "ферритин"]),
  ("transferrin", ["transferrin", "трансферрин"]),
  ("tsh", ["tsh", "thyroid stimulating hormone", "ттг", "тиреотропный гормон"]),
  ("t3", ["t3", "triiodothyronine", "т3", "трийодтиронин"]),
  ("t4", ["t4", "thyroxine", "т4", "тироксин"]),
  ("t3_free", ["free t3", "ft3", "св. т3", "свободный т3"]),
  ("t4_free", ["free t4", "ft4", "св. т4", "свободный т4"]),
  ("vitamin_d", ["vitamin d", "vit d", "25-oh vitamin d", "витамин d", "витамин д", "25-он витамин д"]),
  ("vitamin_b12", ["vitamin b12", "b12", "cobalamin", "витамин в12", "в12", "кобаламин"]),
  ("folate", ["folate", "folic acid", "фолиевая кислота", "фолат"]),
  ("crp", ["crp", "c-reactive protein", "срб", "с-реактивный белок", "с-реактивный протеин"]),
  ("procalcitonin", ["procalcitonin", "pct", "прокальцитонин"]),
  ("il6", ["il-6", "il6", "interleukin-6", "интерлейкин-6", "ил-6"]),
  ("pt", ["pt", "prothrombin time", "протромбиновое время", "птв"]),
  ("inr", ["inr", "мно", "международное нормализованное отношение"]),
  ("aptt", ["aptt", "ptt", "ачтв", "активированное частичное тромбопластиновое время"]),
  ("fibrinogen", ["fibrinogen", "фибриноген"]),
  ("d_dimer", ["d-dimer", "d dimer", "д-димер", "d-димер"]),
  ("cortisol", ["cortisol", "кортизол"]),
  ("testosterone", ["testosterone", "тестостерон"]),
  ("estradiol", ["estradiol", "e2", "эстрадиол"]),
  ("progesterone", ["progesterone", "прогестерон"]),
  ("prolactin", ["prolactin", "пролактин"]),
  ("psa", ["psa", "prostate specific antigen", "пса", "простатический специфический антиген"]),
  ("cea", ["cea", "carcinoembryonic antigen", "рэа", "раково-эмбриональный антиген"]),
  ("afp", ["afp", "alpha-fetoprotein", "афп", "альфа-фетопротеин"]),
  ("ca125", ["ca-125", "ca125", "ca 125", "са-125", "са125"]),
  ("ca199", ["ca-19-9", "ca19-9", "ca199", "ca 19-9", "са-19-9", "са19-9"])]

/-- `REFERENCE_RANGES`: marker key ↦ (default min, default max, default unit). -/
def REFERENCE_RANGES : List (String × (ℚ × ℚ × String)) := [
  ("hemoglobin", (120, 160, "g/L")),
  ("rbc", (qscale 38 1, qscale 55 1, "10^12/L")),
  ("wbc", (qscale 40 1, qscale 100 1, "10^9/L")),
  ("platelets", (150, 400, "10^9/L")),
  ("hematocrit", (36, 48, "%")),
  ("mcv", (80, 100, "fL")),
  ("mch", (27, 33, "pg")),
  ("mchc", (320, 360, "g/L")),
  ("esr", (0, 20, "mm/h")),
  ("glucose", (qscale 39 1, qscale 61 1, "mmol/L")),
  ("cholesterol", (0, qscale 52 1, "mmol/L")),
  ("hdl", (qscale 10 1, qscale 20 1, "mmol/L")),
  ("ldl", (0, qscale 30 1, "mmol/L")),
  ("triglycerides", (0, qscale 17 1, "mmol/L")),
  ("alt", (0, 40, "U/L")),
  ("ast", (0, 40, "U/L")),
  ("creatinine", (53, 115, "μmol/L")),
  ("urea", (qscale 25 1, qscale 83 1, "mmol/L")),
  ("tsh", (qscale 4 1, qscale 40 1, "mIU/L")),
  ("crp", (0, 5, "mg/L"))]

/-- The unit-normalization table of `BloodNLPExtractor._normalize_unit`. -/
def unitNormalizations : List (String × String) := [
  ("г/л", "g/L"),
  ("ммоль/л", "mmol/L"),
  ("мкмоль/л", "μmol/L"),
  ("ед/л", "U/L"),
  ("мм/ч", "mm/h"),
  ("мкг/л", "μg/L"),
  ("нг/мл", "ng/mL"),
  ("пг/мл", "pg/mL"),
  ("%", "%")]

/-- Assoc-list lookup standing in for Python `dict` lookup (keys are unique). -/
def alookup {α : Type} (l : List (String × α)) (k : String) : Option α :=
  match l with
  | [] => none
  | (k', v) :: rest => if k = k' then some v else alookup rest k

/-- The `MarkerResult` dataclass.  `confidence`, thresholds and values are
modelled by `ℚ`. -/
structure MarkerResult where
  value : Option ℚ := none
  unit : Option String := none
  reference_min : Option ℚ := none
  reference_max : Option ℚ := none
  status : Option String := none
  confidence : ℚ := 0
  raw_text : Option String := none
deriving DecidableEq, Repr

/-- `BloodAnalysisExtraction`: one optional `MarkerResult` slot per marker
field (modelled as a map from field name), plus the metadata fields. -/
structure BloodAnalysisExtraction where
  markers : String → Option MarkerResult
  lab_name : Option String := none
  analysis_date : Option String := none
  patient_name : Option String := none

def initialExtraction : BloodAnalysisExtraction :=
  { markers := fun _ => none }

/-- `setattr(result, marker, marker_result)`. -/
def setMarker (k : String) (r : MarkerResult) (e : BloodAnalysisExtraction) :
    BloodAnalysisExtraction :=
  { e with markers := fun k' => if k' = k then some r else e.markers k' }

/-- `BloodNLPExtractor._normalize_unit`: falsy input (`None` or empty) gives
`None`; otherwise the token is stripped and lowercased and looked up in the
table, unknown tokens falling through as the stripped lowercased token. -/
def normalizeUnit (u : Option String) : Option String :=
  match u with
  | none => none
  | some s =>
    if s = "" then none
    else
      let t := String.mk (lowerList (stripChars s.toList))
      match alookup unitNormalizations t with
      | some c => some c
      | none => some t

/-- First half of `BloodNLPExtractor._add_reference_and_status`: fill missing
reference bounds and unit from `REFERENCE_RANGES` when the marker has a
default entry. -/
def fillDefaults (mr : MarkerResult) (key : String) : MarkerResult :=
  match alookup REFERENCE_RANGES key with
  | some (lo, hi, du) =>
    let mr := if mr.reference_min = none then { mr with reference_min := some lo } else mr
    let mr := if mr.reference_max = none then { mr with reference_max := some hi } else mr
    if mr.unit = none then { mr with unit := some du } else mr
  | none => mr

/-- Second half of `BloodNLPExtractor._add_reference_and_status`: the status
threshold ladder, evaluated top-to-bottom, first match wins; a value without
both bounds gets status `unknown`; no value leaves the status untouched. -/
def computeStatus (mr : MarkerResult) : MarkerResult :=
  match mr.value, mr.reference_min, mr.reference_max with
  | some v, some lo, some hi =>
    let s : String :=
      if v < qmul lo (qscale 7 1) then "critical_low"
      else if v < lo then "low"
      else if v > qmul hi (qscale 15 1) then "critical_high"
      else if v > hi then "high"
      else "normal"
    { mr with status := some s }
  | some _, _, _ => { mr with status := some "unknown" }
  | none, _, _ => mr

/-- `BloodNLPExtractor._add_reference_and_status` (mutation rendered as a
function from the observation to the updated observation). -/
def addReferenceAndStatus (mr : MarkerResult) (key : String) : MarkerResult :=
  computeStatus (fillDefaults mr key)

/-- `calculate_status` of `backend/app/api/endpoints/blood.py`. -/
def calculateStatus (value : ℚ) (refMin refMax : Option ℚ) : String :=
  match refMin, refMax with
  | some lo, some hi =>
    if value < qmul lo (qscale 7 1) then "critical_low"
    else if value < lo then "low"
    else if value > qmul hi (qscale 15 1) then "critical_high"
    else if value > hi then "high"
    else "normal"
  | _, _ => "unknown"

/-- The reference-range extraction tiers of the line-scoped pass
(`extract`, the block on `line_after_value`): labeled range first, then the
bare range guarded by `min < max`, then the single-bound inequality. -/
def extractRefBounds (rest : List Char) (mr : MarkerResult) : MarkerResult :=
  match labeledSearch rest with
  | some (mn, mx) =>
    { mr with reference_min := parseFloat mn, reference_max := parseFloat mx }
  | none =>
    match simpleSearch rest with
    | some (mn, mx) =>
      match parseFloat mn, parseFloat mx with
      | some a, some b =>
        if a < b then { mr with reference_min := some a, reference_max := some b } else mr
      | _, _ => mr
    | none =>
      match singleSearch rest with
      | some (op, vs) =>
        match parseFloat vs with
        | some v =>
          if op = '<' || op = '≤' then
            { mr with reference_min := some 0, reference_max := some v }
          else if op = '>' || op = '≥' then
            { mr with reference_min := some v, reference_max := some (qmul v 10) }
          else mr
        | none => mr
      | none => mr

/-- Body of the line-scoped pass for one marker once the skip guard passed:
search the line, build the observation at confidence 1.0, extract reference
bounds from the line remainder, fill defaults and compute status, store. -/
def linePassMarkerGo (line : List Char) (e : BloodAnalysisExtraction)
    (ka : String × List String) : BloodAnalysisExtraction :=
  match aliasSearch (ka.2.map String.toList) line with
  | none => e
  | some m =>
    match parseFloat m.valueStr with
    | none => e
    | some v =>
      let mr : MarkerResult :=
        { value := some v,
          unit := normalizeUnit (m.unitStr.map String.mk),
          confidence := 1,
          raw_text := some (String.mk line) }
      setMarker ka.1 (addReferenceAndStatus (extractRefBounds m.restAfter mr) ka.1) e

/-- One marker step of the line-scoped pass, with the
`existing.confidence >= 1.0` skip guard. -/
def linePassMarker (line : List Char) (e : BloodAnalysisExtraction)
    (ka : String × List String) : BloodAnalysisExtraction :=
  match e.markers ka.1 with
  | some ex => if 1 ≤ ex.confidence then e else linePassMarkerGo line e ka
  | none => linePassMarkerGo line e ka

/-- The line-scoped pass: outer loop over lines, inner loop over the alias
table in dict order. -/
def linePass (lines : List (List Char)) (e : BloodAnalysisExtraction) :
    BloodAnalysisExtraction :=
  lines.foldl (fun e line => MARKER_ALIASES.foldl (linePassMarker line) e) e

/-- Processing of one combined `алт/аст` match: store `alt` then `ast`, both
at confidence 1.0 with unit `U/L`, defaults and status applied. -/
def combinedApply (e : BloodAnalysisExtraction) (m : AltAstMatch) :
    BloodAnalysisExtraction :=
  let e :=
    match parseFloat m.altStr with
    | some v =>
      setMarker "alt" (addReferenceAndStatus
        { value := some v, unit := some "U/L", confidence := 1,
          raw_text := some (String.mk m.group0) } "alt") e
    | none => e
  match parseFloat m.astStr with
  | some v =>
    setMarker "ast" (addReferenceAndStatus
      { value := some v, unit := some "U/L", confidence := 1,
        raw_text := some (String.mk m.group0) } "ast") e
  | none => e

/-- The combined-pattern pass: `for match in alt_ast_pattern.finditer(text)`. -/
def combinedPass (text : List Char) (e : BloodAnalysisExtraction) :
    BloodAnalysisExtraction :=
  (altAstFindAll text).foldl combinedApply e

/-- One marker step of the whole-text fallback pass, guarded by
`existing.confidence > 0`; stores at confidence 0.7 with `raw_text` the
matched snippet, no in-text reference extraction. -/
def fallbackMarkerGo (text : List Char) (e : BloodAnalysisExtraction)
    (ka : String × List String) : BloodAnalysisExtraction :=
  match aliasSearch (ka.2.map String.toList) text with
  | none => e
  | some m =>
    match parseFloat m.valueStr with
    | none => e
    | some v =>
      setMarker ka.1 (addReferenceAndStatus
        { value := some v,
          unit := normalizeUnit (m.unitStr.map String.mk),
          confidence := qscale 7 1,
          raw_text := some (String.mk m.group0) } ka.1) e

def fallbackMarker (text : List Char) (e : BloodAnalysisExtraction)
    (ka : String × List String) : BloodAnalysisExtraction :=
  match e.markers ka.1 with
  | some ex => if 0 < ex.confidence then e else fallbackMarkerGo text e ka
  | none => fallbackMarkerGo text e ka

def fallbackPass (text : List Char) (e : BloodAnalysisExtraction) :
    BloodAnalysisExtraction :=
  MARKER_ALIASES.foldl (fallbackMarker text) e

/-- The five lab-name patterns of `_compile_patterns`, in priority order;
each is a literal searched case-insensitively. -/
def labPatterns : List String :=
  ["invivo", "олимп", "synlab", "kdl", "медицинская лаборатория"]

/-- `BloodNLPExtractor._extract_lab_name`: the first pattern that occurs in
the text wins, and the returned string is `pattern.pattern` — the fixed
lower-case pattern text, never the spelling found in the report. -/
def extractLabName (text : List Char) : Option String :=
  labPatterns.find? fun p => occursCI p.toList text

/-- Date digit groups `\d{1,2}` with the following separator test
(greedy: two digits first, then one). -/
def dayCands (s : List Char) : List (List Char × List Char) :=
  match s with
  | a :: b :: r => (if isDigitChar a then (if isDigitChar b then [([a, b], r)] else []) ++ [([a], b :: r)] else [])
  | [a] => if isDigitChar a then [([a], [])] else []
  | [] => []

/-- `BloodNLPExtractor._extract_date`:
`(?:дата|date)[:\s]*(?P<date>\d{1,2}[./]\d{1,2}[./]\d{2,4})`, search. -/
def dateAt (s : List Char) : Option (List Char) :=
  (["дата", "date"].map String.toList).findSome? fun w =>
    match dropLitCI w s with
    | none => none
    | some r0 =>
      let r1 := r0.dropWhile (fun c => c = ':' || isSpaceChar c)
      (dayCands r1).findSome? fun (d1, r2) =>
        match r2 with
        | c :: r3 =>
          if c = '.' || c = '/' then
            (dayCands r3).findSome? fun (d2, r4) =>
              match r4 with
              | c2 :: r5 =>
                if c2 = '.' || c2 = '/' then
                  let ys := (r5.takeWhile isDigitChar).take 4
                  if 2 ≤ ys.length then some (d1 ++ c :: d2 ++ c2 :: ys) else none
                else none
              | [] => none
          else none
        | [] => none

def extractDate : List Char → Option String
  | [] => none
  | s@(_ :: t) =>
    match dateAt s with
    | some d => some (String.mk d)
    | none => extractDate t

/-- `BloodNLPExtractor.extract`: empty text short-circuits to the all-absent
result; otherwise metadata extraction, then the combined-pattern pass, the
line-scoped pass over non-empty stripped lines, and the whole-text fallback. -/
def extract (text : String) : BloodAnalysisExtraction :=
  if text = "" then initialExtraction
  else
    let t := text.toList
    let lines := ((splitLines t).map stripChars).filter (fun l => l ≠ [])
    let e := { initialExtraction with
      lab_name := extractLabName t,
      analysis_date := extractDate t }
    fallbackPass t (linePass lines (combinedPass t e))

/-- The `__dataclass_fields__` of `BloodAnalysisExtraction`, in declaration
order: the 72 marker slots followed by the three metadata fields. -/
def metadataFields : List String :=
  ["lab_name", "analysis_date", "patient_name"]

def dataclassFields : List String := [
  "hemoglobin", "rbc", "wbc", "platelets", "hematocrit", "mcv", "mch", "mchc",
  "rdw", "mpv", "esr",
  "neutrophils", "lymphocytes", "monocytes", "eosinophils", "basophils",
  "glucose", "hba1c", "insulin",
  "cholesterol", "hdl", "ldl", "vldl", "triglycerides",
  "alt", "ast", "ggt", "alp", "bilirubin_total", "bilirubin_direct", "albumin",
  "total_protein",
  "creatinine", "urea", "uric_acid", "gfr", "cystatin_c",
  "sodium", "potassium", "chloride", "calcium", "magnesium", "phosphorus",
  "iron", "ferritin", "transferrin",
  "tsh", "t3", "t4", "t3_free", "t4_free",
  "vitamin_d", "vitamin_b12", "folate",
  "crp", "procalcitonin", "il6",
  "pt", "inr", "aptt", "fibrinogen", "d_dimer",
  "cortisol", "testosterone", "estradiol", "progesterone", "prolactin",
  "psa", "cea", "afp", "ca125", "ca199"] ++ metadataFields

/-- One alert dict of `get_summary`: the marker field name, the value, the
unit, the observation's status field, and the derived severity. -/
structure SummaryAlert where
  marker : String
  value : ℚ
  unit : Option String
  status : Option String
  severity : String
deriving DecidableEq, Repr

structure ExtractionSummary where
  total_markers : ℕ
  found_markers : ℕ
  extraction_rate : ℚ
  alerts : List SummaryAlert
  critical_count : ℕ
  warning_count : ℕ
deriving DecidableEq, Repr

/-- Round half to even at integer precision (Python `round` on the exact
rational), kernel-computable. -/
def roundHalfEven (q : ℚ) : ℤ :=
  let f := q.num.fdiv q.den
  let r := q.num - f * q.den
  if 2 * r < q.den then f
  else if (q.den : ℤ) < 2 * r then f + 1
  else if f % 2 = 0 then f else f + 1

/-- Python `round(x, 1)` on the exact rational. -/
def pyRound1 (q : ℚ) : ℚ :=
  qscale (roundHalfEven (qmul q 10)) 1

/-- One field step of the `get_summary` loop, accumulating
(total, found, alerts). -/
def summaryStep (e : BloodAnalysisExtraction) (acc : ℕ × ℕ × List SummaryAlert)
    (f : String) : ℕ × ℕ × List SummaryAlert :=
  if f ∈ metadataFields then acc
  else
    let total := acc.1 + 1
    match e.markers f with
    | some r =>
      match r.value with
      | some v =>
        let alerts :=
          if r.status = some "critical_low" || r.status = some "critical_high" then
            acc.2.2 ++ [⟨f, v, r.unit, r.status, "critical"⟩]
          else if r.status = some "low" || r.status = some "high" then
            acc.2.2 ++ [⟨f, v, r.unit, r.status, "warning"⟩]
          else acc.2.2
        (total, acc.2.1 + 1, alerts)
      | none => (total, acc.2.1, acc.2.2)
    | none => (total, acc.2.1, acc.2.2)

/-- `BloodNLPExtractor.get_summary`.  The extraction rate
`round(found / total * 100, 1)` is the exact rational `found·100 / total`
rounded half-to-even to one decimal, `0` when `total = 0`. -/
def getSummary (e : BloodAnalysisExtraction) : ExtractionSummary :=
  let acc := dataclassFields.foldl (summaryStep e) (0, 0, [])
  { total_markers := acc.1,
    found_markers := acc.2.1,
    extraction_rate := if 0 < acc.1 then pyRound1 (mkRat (acc.2.1 * 100) acc.1) else 0,
    alerts := acc.2.2,
    critical_count := (acc.2.2.filter (fun a => a.severity = "critical")).length,
    warning_count := (acc.2.2.filter (fun a => a.severity = "warning")).length }

/-- Python `str.strip()` on `String`. -/
def pyStripS (s : String) : String :=
  String.mk (stripChars s.toList)

/-- Python `str.isdigit()` (ASCII digits). -/
def pyIsDigitS (s : String) : Bool :=
  !s.toList.isEmpty && s.toList.all isDigitChar

/-- The accumulator of `parse_lab_row`'s cell loop. -/
structure RowState where
  name : Option String := none
  value : Option ℚ := none
  unit : Option String := none
  ref_min : Option ℚ := none
  ref_max : Option ℚ := none
deriving DecidableEq, Repr

/-- The dict returned by `parse_lab_row`. -/
structure TableRowObservation where
  name : String
  value : ℚ
  unit : Option String
  reference_min : Option ℚ
  reference_max : Option ℚ
deriving DecidableEq, Repr

/-- The full-cell measurement test of `parse_lab_row`:
`^(\d+(?:[.,]\d+)?)\s*([a-zа-яёµ%\^\d\*\/\.\-]*)?$` (IGNORECASE); yields the
parsed value and the unit token when the second group is non-empty. -/
def rowNumMatch (cell : String) : Option (ℚ × Option String) :=
  match numFull cell.toList with
  | none => none
  | some (val, r1) =>
    let r2 := dropSpacesL r1
    if r2.all isUnitChar then
      match parseFloat val with
      | some v => some (v, if r2 = [] then none else some (String.mk r2))
      | none => none
    else none

/-- Unanchored search for `(\d+(?:[.,]\d+)?)\s*[-–—]\s*(\d+(?:[.,]\d+)?)`
inside a cell. -/
def rowRefSearch : List Char → Option (List Char × List Char)
  | [] => none
  | s@(_ :: t) =>
    match numDashNum s with
    | some m => some m
    | none => rowRefSearch t

/-- The reference/single-bound/name classification a cell falls through to
when it is not taken as the value (`parse_lab_row`, after the first branch). -/
def rowStepRef (st : RowState) (c : String) : RowState :=
  match rowRefSearch c.toList with
  | some (mn, mx) => { st with ref_min := parseFloat mn, ref_max := parseFloat mx }
  | none =>
    match singleSearch c.toList with
    | some (_, vs) =>
      match parseFloat vs with
      | some b =>
        if c.toList.any (fun ch => ch = '<' || ch = '≤') then
          { st with ref_min := some 0, ref_max := some b }
        else { st with ref_min := some b, ref_max := some (qmul b 10) }
      | none => st
    | none =>
      if st.name = none && 1 < c.length && !pyIsDigitS c then
        { st with name := some c }
      else st

/-- One cell step of `parse_lab_row`: empty cells are skipped; the first
cell matching the pure-measurement shape becomes the value/unit; any other
cell falls through to reference / single-bound / name classification. -/
def rowStep (st : RowState) (cell : String) : RowState :=
  let c := pyStripS cell
  if c = "" then st
  else
    match rowNumMatch c with
    | some (v, u) =>
      if st.value = none then { st with value := some v, unit := u }
      else rowStepRef st c
    | none => rowStepRef st c

/-- `parse_lab_row`: rows shorter than two cells are rejected; otherwise the
cells are folded and an observation is produced exactly when both a name and
a value were found. -/
def parseLabRow (row : List String) : Option TableRowObservation :=
  if row.length < 2 then none
  else
    let st := row.foldl rowStep {}
    match st.name, st.value with
    | some n, some v => some ⟨n, v, st.unit, st.ref_min, st.ref_max⟩
    | _, _ => none

theorem setMarker_same (k : String) (r : MarkerResult) (e : BloodAnalysisExtraction) :
    (setMarker k r e).markers k = some r := by
  simp [setMarker]

theorem setMarker_other (k k' : String) (r : MarkerResult) (e : BloodAnalysisExtraction)
    (h : k' ≠ k) : (setMarker k r e).markers k' = e.markers k' := by
  simp [setMarker, h]

theorem setMarker_lab (k : String) (r : MarkerResult) (e : BloodAnalysisExtraction) :
    (setMarker k r e).lab_name = e.lab_name := rfl

theorem extractRefBounds_value (rest : List Char) (mr : MarkerResult) :
    (extractRefBounds rest mr).value = mr.value := by
  unfold extractRefBounds
  (repeat' split) <;> rfl

theorem extractRefBounds_confidence (rest : List Char) (mr : MarkerResult) :
    (extractRefBounds rest mr).confidence = mr.confidence := by
  unfold extractRefBounds
  (repeat' split) <;> rfl

theorem fillDefaults_value (mr : MarkerResult) (key : String) :
    (fillDefaults mr key).value = mr.value := by
  unfold fillDefaults
  split
  · dsimp only
    (repeat' split) <;> rfl
  · rfl

theorem fillDefaults_confidence (mr : MarkerResult) (key : String) :
    (fillDefaults mr key).confidence = mr.confidence := by
  unfold fillDefaults
  split
  · dsimp only
    (repeat' split) <;> rfl
  · rfl

theorem computeStatus_value (mr : MarkerResult) :
    (computeStatus mr).value = mr.value := by
  unfold computeStatus
  (repeat' split) <;> rfl

theorem computeStatus_confidence (mr : MarkerResult) :
    (computeStatus mr).confidence = mr.confidence := by
  unfold computeStatus
  (repeat' split) <;> rfl

theorem computeStatus_reference_min (mr : MarkerResult) :
    (computeStatus mr).reference_min = mr.reference_min := by
  unfold computeStatus
  (repeat' split) <;> rfl

theorem computeStatus_reference_max (mr : MarkerResult) :
    (computeStatus mr).reference_max = mr.reference_max := by
  unfold computeStatus
  (repeat' split) <;> rfl

theorem addReferenceAndStatus_value (mr : MarkerResult) (key : String) :
    (addReferenceAndStatus mr key).value = mr.value := by
  unfold addReferenceAndStatus
  rw [computeStatus_value, fillDefaults_value]

theorem addReferenceAndStatus_confidence (mr : MarkerResult) (key : String) :
    (addReferenceAndStatus mr key).confidence = mr.confidence := by
  unfold addReferenceAndStatus
  rw [computeStatus_confidence, fillDefaults_confidence]

theorem linePassMarkerGo_other (line : List Char) (e : BloodAnalysisExtraction)
    (ka : String × List String) (k : String) (h : k ≠ ka.1) :
    (linePassMarkerGo line e ka).markers k = e.markers k := by
  unfold linePassMarkerGo
  (repeat' split) <;> first
    | rfl
    | exact setMarker_other _ _ _ _ h

theorem fallbackMarkerGo_other (text : List Char) (e : BloodAnalysisExtraction)
    (ka : String × List String) (k : String) (h : k ≠ ka.1) :
    (fallbackMarkerGo text e ka).markers k = e.markers k := by
  unfold fallbackMarkerGo
  (repeat' split) <;> first
    | rfl
    | exact setMarker_other _ _ _ _ h

/-- A slot already holding confidence `≥ 1` is never replaced by a
line-scoped step: its own marker hits the skip guard, all other markers
write other slots. -/
theorem linePassMarker_keeps (line : List Char) (e : BloodAnalysisExtraction)
    (ka : String × List String) (k : String) (r : MarkerResult)
    (h : e.markers k = some r) (hc : 1 ≤ r.confidence) :
    (linePassMarker line e ka).markers k = some r := by
  by_cases hk : k = ka.1
  · subst hk
    unfold linePassMarker
    rw [h]
    simp [hc, h]
  · unfold linePassMarker
    rcases hm : e.markers ka.1 with _ | ex
    · rw [linePassMarkerGo_other _ _ _ _ hk, h]
    · by_cases hex : 1 ≤ ex.confidence
      · simp [hex, h]
      · simp [hex, linePassMarkerGo_other _ _ _ _ hk, h]

/-- A slot with positive confidence is never replaced by a fallback step. -/
theorem fallbackMarker_keeps (text : List Char) (e : BloodAnalysisExtraction)
    (ka : String × List String) (k : String) (r : MarkerResult)
    (h : e.markers k = some r) (hc : 0 < r.confidence) :
    (fallbackMarker text e ka).markers k = some r := by
  by_cases hk : k = ka.1
  · subst hk
    unfold fallbackMarker
    rw [h]
    simp [hc, h]
  · unfold fallbackMarker
    rcases hm : e.markers ka.1 with _ | ex
    · rw [fallbackMarkerGo_other _ _ _ _ hk, h]
    · by_cases hex : 0 < ex.confidence
      · simp [hex, h]
      · simp [hex, fallbackMarkerGo_other _ _ _ _ hk, h]

/-- Generic preservation of a predicate along `List.foldl`. -/
theorem foldl_keeps {α β : Type} (f : β → α → β) (P : β → Prop) :
    ∀ (l : List α) (b : β), (∀ b' a, a ∈ l → P b' → P (f b' a)) → P b → P (l.foldl f b)
  | [], _, _, he => he
  | a :: t, b, hf, he =>
    foldl_keeps f P t (f b a) (fun b' a' ha' => hf b' a' (List.mem_cons_of_mem a ha'))
      (hf b a (List.mem_cons_self a t) he)

/-- A slot at confidence `≥ 1` survives the whole line-scoped pass. -/
theorem linePass_keeps (lines : List (List Char)) (e : BloodAnalysisExtraction)
    (k : String) (r : MarkerResult) (h : e.markers k = some r) (hc : 1 ≤ r.confidence) :
    (linePass lines e).markers k = some r := by
  unfold linePass
  refine foldl_keeps _ (fun e' => e'.markers k = some r) lines e (fun e' line _ he' => ?_) h
  exact foldl_keeps _ (fun e'' => e''.markers k = some r) MARKER_ALIASES e'
    (fun e'' ka _ he'' => linePassMarker_keeps line e'' ka k r he'' hc) he'

/-- A slot at positive confidence survives the whole fallback pass. -/
theorem fallbackPass_keeps (text : List Char) (e : BloodAnalysisExtraction)
    (k : String) (r : MarkerResult) (h : e.markers k = some r) (hc : 0 < r.confidence) :
    (fallbackPass text e).markers k = some r := by
  unfold fallbackPass
  exact foldl_keeps _ (fun e' => e'.markers k = some r) MARKER_ALIASES e
    (fun e' ka _ he' => fallbackMarker_keeps text e' ka k r he' hc) h

/-- A step of the line-scoped pass for a marker whose key differs from `k`
cannot touch slot `k`. -/
theorem linePassMarker_other (line : List Char) (e : BloodAnalysisExtraction)
    (ka : String × List String) (k : String) (h : k ≠ ka.1) :
    (linePassMarker line e ka).markers k = e.markers k := by
  unfold linePassMarker
  (repeat' split) <;> first
    | rfl
    | exact linePassMarkerGo_other _ _ _ _ h

theorem fallbackMarker_other (text : List Char) (e : BloodAnalysisExtraction)
    (ka : String × List String) (k : String) (h : k ≠ ka.1) :
    (fallbackMarker text e ka).markers k = e.markers k := by
  unfold fallbackMarker
  (repeat' split) <;> first
    | rfl
    | exact fallbackMarkerGo_other _ _ _ _ h

/-- The marker keys of the alias table are pairwise distinct. -/
theorem markerKeysNodup : (MARKER_ALIASES.map Prod.fst).Nodup := by decide

/-- The record built and stored by the line-scoped pass when marker `K`'s
pattern matches the line with a parseable value. -/
def lineStored (line : List Char) (K : String) (m : AliasMatch) (v : ℚ) : MarkerResult :=
  addReferenceAndStatus (extractRefBounds m.restAfter
    { value := some v,
      unit := normalizeUnit (m.unitStr.map String.mk),
      confidence := 1,
      raw_text := some (String.mk line) }) K

theorem lineStored_confidence (line : List Char) (K : String) (m : AliasMatch) (v : ℚ) :
    (lineStored line K m v).confidence = 1 := by
  unfold lineStored
  rw [addReferenceAndStatus_confidence, extractRefBounds_confidence]

theorem lineStored_value (line : List Char) (K : String) (m : AliasMatch) (v : ℚ) :
    (lineStored line K m v).value = some v := by
  unfold lineStored
  rw [addReferenceAndStatus_value, extractRefBounds_value]

/-- Folding the line-scoped pass over the alias table writes slot `K` with
the record computed from `K`'s own pattern, provided the slot is empty at the
start, `K`'s pattern matches the line with a parseable value, and `K` is the
table's first (hence, by `markerKeysNodup`, only) entry for that key. -/
theorem linePassMarker_write (line : List Char) (e : BloodAnalysisExtraction)
    (K : String) (as : List String) (m : AliasMatch) (v : ℚ)
    (hnone : e.markers K = none)
    (hsearch : aliasSearch (as.map String.toList) line = some m)
    (hval : parseFloat m.valueStr = some v) :
    (linePassMarker line e (K, as)).markers K = some (lineStored line K m v) := by
  unfold linePassMarker
  rw [hnone]
  unfold linePassMarkerGo
  dsimp only
  rw [hsearch]
  dsimp only
  rw [hval]
  exact setMarker_same _ _ _

theorem linePassFold_writes (line : List Char) (e : BloodAnalysisExtraction)
    (K : String) (as : List String) (m : AliasMatch) (v : ℚ)
    (l₁ l₂ : List (String × List String))
    (hsplit : MARKER_ALIASES = l₁ ++ (K, as) :: l₂)
    (hios : ∀ q ∈ l₁, q.1 ≠ K)
    (hnone : e.markers K = none)
    (hsearch : aliasSearch (as.map String.toList) line = some m)
    (hval : parseFloat m.valueStr = some v) :
    (MARKER_ALIASES.foldl (linePassMarker line) e).markers K = some (lineStored line K m v) := by
  rw [hsplit, List.foldl_append, List.foldl_cons]
  have h1 : (l₁.foldl (linePassMarker line) e).markers K = none := by
    refine foldl_keeps _ (fun e' : BloodAnalysisExtraction => e'.markers K = none) l₁ e (fun e' ka hka he' => ?_) hnone
    show (linePassMarker line e' ka).markers K = none
    rw [linePassMarker_other _ _ _ _ (fun hKk => (hios ka hka) hKk.symm)]
    exact he'
  have h2 := linePassMarker_write line (l₁.foldl (linePassMarker line) e) K as m v h1 hsearch hval
  refine foldl_keeps _ (fun e' : BloodAnalysisExtraction => e'.markers K = some (lineStored line K m v)) l₂ _ ?_ h2
  intro e' ka _ he'
  exact linePassMarker_keeps line e' ka K _ he' (by rw [lineStored_confidence])

/-- Reduction of a full `extract` call on a single-line text that triggers no
combined match: marker `K`'s final slot value is the value parsed by `K`'s own
line-scoped pattern. -/
theorem extract_single_line_value (text : String) (K : String) (as : List String)
    (m : AliasMatch) (v : ℚ)
    (hne : text ≠ "")
    (hmem : (K, as) ∈ MARKER_ALIASES)
    (hcomb : altAstFindAll text.toList = [])
    (hlines : ((splitLines text.toList).map stripChars).filter (fun l => l ≠ [])
      = [stripChars text.toList])
    (hsearch : aliasSearch (as.map String.toList) (stripChars text.toList) = some m)
    (hval : parseFloat m.valueStr = some v) :
    ((extract text).markers K).bind MarkerResult.value = some v := by
  obtain ⟨l₁, l₂, hsplit⟩ := List.append_of_mem hmem
  have hios : ∀ q ∈ l₁, q.1 ≠ K := by
    intro q hq hqK
    have hnd := markerKeysNodup
    rw [hsplit, List.map_append, List.map_cons] at hnd
    have hdisj := (List.nodup_append.mp hnd).2.2
    have hmap : q.1 ∈ l₁.map Prod.fst := List.mem_map_of_mem Prod.fst hq
    rw [hqK] at hmap
    exact hdisj hmap (List.mem_cons_self _ _)
  unfold extract
  rw [if_neg hne]
  dsimp only
  rw [hlines]
  rw [combinedPass, hcomb, List.foldl_nil]
  have hlp : (linePass [stripChars text.toList]
      { initialExtraction with
        lab_name := extractLabName text.toList,
        analysis_date := extractDate text.toList }).markers K
      = some (lineStored (stripChars text.toList) K m v) := by
    rw [linePass, List.foldl_cons, List.foldl_nil]
    exact linePassFold_writes _ _ K as m v l₁ l₂ hsplit hios rfl hsearch hval
  have hfb := fallbackPass_keeps text.toList _ K _ hlp
    (by rw [lineStored_confidence]; norm_num)
  rw [hfb]
  exact lineStored_value _ _ _ _

/-- The per-alias decidable obligations behind the alias-coverage property:
the synthetic line is non-empty, triggers neither the combined pattern nor a
second line, and the marker's own pattern parses value `10` from it. -/
def c3aliasOK (as : List String) (a : String) : Bool :=
  decide ((a ++ ": 10" : String) ≠ "") &&
  decide (altAstFindAll (a ++ ": 10").toList = []) &&
  decide (((splitLines (a ++ ": 10").toList).map stripChars).filter (fun l => l ≠ [])
    = [stripChars (a ++ ": 10").toList]) &&
  (match aliasSearch (as.map String.toList) (stripChars (a ++ ": 10").toList) with
   | some m => decide (parseFloat m.valueStr = some 10)
   | none => false)

set_option maxRecDepth 2000000 in
set_option maxHeartbeats 8000000 in
theorem c3check_true :
    (MARKER_ALIASES.all fun p => p.2.all fun a => c3aliasOK p.2 a) = true := by
  decide

/-- C3: for every alias string A registered under marker key K in
`MARKER_ALIASES`, extracting from the single-line text `"A: 10"` yields an
extraction result in which marker K holds value `10.0`. -/
theorem c3_alias_coverage : ∀ p ∈ MARKER_ALIASES, ∀ a ∈ p.2,
    ((extract (a ++ ": 10")).markers p.1).bind MarkerResult.value = some 10 := by
  intro p hp a ha
  have h1 : c3aliasOK p.2 a = true :=
    List.all_eq_true.mp (List.all_eq_true.mp c3check_true p hp) a ha
  unfold c3aliasOK at h1
  rw [Bool.and_eq_true, Bool.and_eq_true, Bool.and_eq_true] at h1
  obtain ⟨⟨⟨hne, hcomb⟩, hlines⟩, hm⟩ := h1
  rw [decide_eq_true_eq] at hne hcomb hlines
  rcases hs : aliasSearch (p.2.map String.toList) (stripChars (String.toList (a ++ ": 10")))
    with _ | m
  · rw [hs] at hm
    exact absurd hm (by simp)
  · rw [hs] at hm
    dsimp only at hm
    rw [decide_eq_true_eq] at hm
    exact extract_single_line_value (a ++ ": 10") p.1 p.2 m 10 hne hp hcomb hlines hs hm

set_option maxRecDepth 100000 in
/-- Witness for C3 at the concrete alias `"hb"` of `hemoglobin`. -/
theorem c3_alias_coverage_witness :
    ((extract ("hb" ++ ": 10")).markers "hemoglobin").bind MarkerResult.value = some 10 :=
  c3_alias_coverage ("hemoglobin", ["hemoglobin", "hgb", "hb", "гемоглобин", "гемоглобин"])
    (by decide) "hb" (by decide)

theorem qscale_eq (m : ℤ) (e : ℕ) : qscale m e = (m : ℚ) / 10 ^ e := by
  rw [qscale, Rat.mkRat_eq_div]
  push_cast
  rfl

theorem qmul_eq (a b : ℚ) : qmul a b = a * b := by
  rw [qmul, Rat.mkRat_eq_div]
  push_cast
  rw [← div_mul_div_comm, Rat.num_div_den, Rat.num_div_den]

theorem qmul_seven_tenths (a : ℚ) : qmul a (qscale 7 1) = a * 0.7 := by
  rw [qmul_eq, qscale_eq]
  norm_num

theorem qmul_three_halves (a : ℚ) : qmul a (qscale 15 1) = a * 1.5 := by
  rw [qmul_eq, qscale_eq]
  norm_num

/-- C1: for every marker observation holding a numeric value, the status
computed by `_add_reference_and_status` follows the exact threshold ladder
(top-to-bottom, first match wins) whenever both reference bounds are present
after default-filling, and is `unknown` whenever at least one bound is absent
after default-filling; the `calculate_status` helper of the blood endpoint
computes the same ladder and returns `unknown` when either bound is `None`. -/
theorem c1_status_ladder (mr : MarkerResult) (key : String) (v : ℚ)
    (hv : mr.value = some v) :
    (∀ lo hi, (addReferenceAndStatus mr key).reference_min = some lo →
      (addReferenceAndStatus mr key).reference_max = some hi →
      (addReferenceAndStatus mr key).status = some
        (if v < lo * 0.7 then "critical_low"
         else if v < lo then "low"
         else if v > hi * 1.5 then "critical_high"
         else if v > hi then "high"
         else "normal")) ∧
    ((addReferenceAndStatus mr key).reference_min = none ∨
      (addReferenceAndStatus mr key).reference_max = none →
      (addReferenceAndStatus mr key).status = some "unknown") ∧
    (∀ lo hi : ℚ, calculateStatus v (some lo) (some hi) =
      (if v < lo * 0.7 then "critical_low"
       else if v < lo then "low"
       else if v > hi * 1.5 then "critical_high"
       else if v > hi then "high"
       else "normal")) ∧
    (∀ rmin rmax : Option ℚ, rmin = none ∨ rmax = none →
      calculateStatus v rmin rmax = "unknown") := by
  have hgv : (fillDefaults mr key).value = some v := by rw [fillDefaults_value, hv]
  refine ⟨?_, ?_, ?_, ?_⟩
  · intro lo hi hlo hhi
    unfold addReferenceAndStatus at hlo hhi ⊢
    rw [computeStatus_reference_min] at hlo
    rw [computeStatus_reference_max] at hhi
    unfold computeStatus
    rw [hgv, hlo, hhi]
    dsimp only
    rw [qmul_seven_tenths, qmul_three_halves]
  · intro h
    unfold addReferenceAndStatus at h ⊢
    rcases h with hlo | hhi
    · rw [computeStatus_reference_min] at hlo
      unfold computeStatus
      rw [hgv, hlo]
    · rw [computeStatus_reference_max] at hhi
      unfold computeStatus
      rw [hgv, hhi]
      cases hmin : (fillDefaults mr key).reference_min <;> rfl
  · intro lo hi
    unfold calculateStatus
    dsimp only
    rw [qmul_seven_tenths, qmul_three_halves]
  · intro rmin rmax h
    rcases h with h | h <;> subst h <;> unfold calculateStatus
    · rfl
    · rcases rmin with _ | lo <;> rfl

/-- Witness for C1: hemoglobin value 100 against the default bounds
(120, 160) lands in the `low` rung of the ladder. -/
theorem c1_status_ladder_witness :
    (addReferenceAndStatus { value := some 100, confidence := 1 } "hemoglobin").status = some
      (if (100 : ℚ) < 120 * 0.7 then "critical_low"
       else if (100 : ℚ) < 120 then "low"
       else if (100 : ℚ) > 160 * 1.5 then "critical_high"
       else if (100 : ℚ) > 160 then "high"
       else "normal") :=
  (c1_status_ladder { value := some 100, confidence := 1 } "hemoglobin" 100 rfl).1
    120 160 (by decide) (by decide)

/-- C2 (amended): once a marker's slot holds an observation at confidence
`≥ 1.0`, neither the line-scoped pass nor the whole-text fallback pass ever
replaces it (so ties at equal confidence never overwrite across or within
those passes), and the fallback pass never replaces any slot with positive
confidence.  (Within the combined-pattern pass itself a later combined match
does overwrite an earlier one at equal confidence 1.0 — see the
counterexample.) -/
theorem c2_pass_no_overwrite (e : BloodAnalysisExtraction) (k : String)
    (r : MarkerResult) (lines : List (List Char)) (text : List Char)
    (h : e.markers k = some r) :
    (1 ≤ r.confidence → (linePass lines e).markers k = some r) ∧
    (0 < r.confidence → (fallbackPass text e).markers k = some r) :=
  ⟨fun hc => linePass_keeps lines e k r h hc,
   fun hc => fallbackPass_keeps text e k r h hc⟩

set_option maxRecDepth 100000 in
/-- Witness for C2: a slot stored at confidence 1.0 survives a line-scoped
pass and a fallback pass over a line that would match it. -/
theorem c2_pass_no_overwrite_witness :
    (linePass ["алт 7".toList]
        (setMarker "alt" { value := some 5, confidence := 1 } initialExtraction)).markers "alt"
      = some { value := some 5, confidence := 1 } ∧
    (fallbackPass "алт 7".toList
        (setMarker "alt" { value := some 5, confidence := 1 } initialExtraction)).markers "alt"
      = some { value := some 5, confidence := 1 } := by
  have h := c2_pass_no_overwrite
    (setMarker "alt" { value := some 5, confidence := 1 } initialExtraction)
    "alt" { value := some 5, confidence := 1 } ["алт 7".toList] "алт 7".toList (by decide)
  exact ⟨h.1 (by norm_num), h.2 (by norm_num)⟩

set_option maxRecDepth 1000000 in
set_option maxHeartbeats 4000000 in
/-- C2 counterexample: on a text with two combined `алт/аст` matches, the
combined pass first stores `alt` at value 23 and confidence 1.0, and the
second combined match of the same extraction call then replaces it by an
observation of equal confidence 1.0 (value 30) — so a tie at equal
confidence does overwrite inside the combined pass. -/
theorem c2_tie_overwrite_counterexample :
    ((((altAstFindAll "алт/аст 23/18 алт/аст 30/40".toList).take 1).foldl combinedApply
        initialExtraction).markers "alt").map (fun r => (r.value, r.confidence))
      = some (some 23, 1) ∧
    (altAstFindAll "алт/аст 23/18 алт/аст 30/40".toList).length = 2 ∧
    ((extract "алт/аст 23/18 алт/аст 30/40").markers "alt").map
        (fun r => (r.value, r.confidence))
      = some (some 30, 1) := by
  refine ⟨by decide, by decide, by decide⟩

/-- C4 (amended): only the bare-range tier applies the `min < max`
plausibility guard — when the labeled tier does not match and the bare-range
tier matches with `min ≥ max`, the observation is returned unchanged (the
bounds are not set, so the static defaults apply later; the single-bound tier
is not consulted).  The labeled tier itself has no such guard — see the
counterexample. -/
theorem c4_simple_range_guard (rest : List Char) (mr : MarkerResult)
    (mn mx : List Char) (a b : ℚ)
    (hl : labeledSearch rest = none)
    (hs : simpleSearch rest = some (mn, mx))
    (hmn : parseFloat mn = some a)
    (hmx : parseFloat mx = some b)
    (hab : b ≤ a) :
    extractRefBounds rest mr = mr := by
  unfold extractRefBounds
  rw [hl]
  dsimp only
  rw [hs]
  dsimp only
  rw [hmn, hmx]
  dsimp only
  rw [if_neg (not_lt.mpr hab)]

set_option maxRecDepth 100000 in
/-- Witness for C4 (amended) at the remainder `"(160-120)"`: the implausible
bare range is rejected and the observation is unchanged. -/
theorem c4_simple_range_guard_witness :
    extractRefBounds "(160-120)".toList {} = ({} : MarkerResult) :=
  c4_simple_range_guard "(160-120)".toList {} "160".toList "120".toList 160 120
    (by decide) (by decide) (by decide) (by decide) (by norm_num)

set_option maxRecDepth 1000000 in
set_option maxHeartbeats 4000000 in
/-- C4 counterexample: the labeled-range tier accepts an implausible range.
On the line `"гемоглобин 140 г/л норма: 160-120"` the labeled pattern matches
the remainder after the value with min 160 ≥ max 120, and the extraction
stores exactly those inverted bounds (the defaults would have been
(120, 160)) instead of rejecting the attempt. -/
theorem c4_labeled_range_counterexample :
    labeledSearch " норма: 160-120".toList = some ("160".toList, "120".toList) ∧
    ((extract "гемоглобин 140 г/л норма: 160-120").markers "hemoglobin").map
      (fun r => (r.reference_min, r.reference_max)) = some (some 160, some 120) := by
  refine ⟨by decide, by decide⟩

set_option maxRecDepth 1000000 in
set_option maxHeartbeats 4000000 in
/-- C5: extracting from `"АЛТ/АСТ 23/18"` assigns the first number to `alt`
(23.0) and the second to `ast` (18.0), both at confidence 1.0.  The third
conjunct shows that the generic per-marker pattern for `ast` *does* match
the same line — with value 23 — so the final value 18 witnesses that the
combined-pattern result is not overwritten by the later generic pass (the
confidence-1.0 skip guard protects it). -/
theorem c5_combined_alt_ast :
    ((extract "АЛТ/АСТ 23/18").markers "alt").map (fun r => (r.value, r.confidence))
      = some (some 23, 1) ∧
    ((extract "АЛТ/АСТ 23/18").markers "ast").map (fun r => (r.value, r.confidence))
      = some (some 18, 1) ∧
    ((alookup MARKER_ALIASES "ast").bind fun as =>
        (aliasSearch (as.map String.toList) (stripChars "АЛТ/АСТ 23/18".toList)).map
          AliasMatch.valueStr)
      = some "23".toList := by
  refine ⟨by decide, by decide, by decide⟩


set_option maxRecDepth 100000 in
/-- C8 counterexample: `"G/L"` is not in the normalization table (its
lowercase form `"g/l"` is not a key — the Cyrillic `"г/л"` is), yet the
normalizer does not return it unchanged: it returns the stripped lowercased
token `"g/l"`. -/
theorem c8_passthrough_counterexample :
    normalizeUnit (some "G/L") = some "g/l" ∧
    ("g/l" : String) ≠ "G/L" ∧
    alookup unitNormalizations "g/l" = none := by
  refine ⟨by decide, by decide, by decide⟩

/-- C8 (amended): for a non-empty raw unit token, `_normalize_unit` first
strips and lowercases the token; if that form is a table key the canonical
form is returned (which makes the lookup case-insensitive), and otherwise
the *stripped lowercased* token — not the original — is returned. -/
theorem c8_normalize_unit (t : String) (h : t ≠ "") :
    (∀ c, alookup unitNormalizations (String.mk (lowerList (stripChars t.toList))) = some c →
      normalizeUnit (some t) = some c) ∧
    (alookup unitNormalizations (String.mk (lowerList (stripChars t.toList))) = none →
      normalizeUnit (some t) = some (String.mk (lowerList (stripChars t.toList)))) := by
  constructor
  · intro c hc
    simp only [normalizeUnit]
    rw [if_neg h]
    rw [hc]
  · intro hc
    simp only [normalizeUnit]
    rw [if_neg h]
    rw [hc]

set_option maxRecDepth 100000 in
/-- Witness for C8 (amended): the Cyrillic token `"Г/Л"` is normalized to the
canonical `"g/L"` through the case-insensitive lookup. -/
theorem c8_normalize_unit_witness :
    normalizeUnit (some "Г/Л") = some "g/L" :=
  (c8_normalize_unit "Г/Л" (by decide)).1 "g/L" (by decide)

theorem combinedApply_lab (e : BloodAnalysisExtraction) (m : AltAstMatch) :
    (combinedApply e m).lab_name = e.lab_name := by
  unfold combinedApply
  (repeat' split) <;> rfl

theorem linePassMarker_lab (line : List Char) (e : BloodAnalysisExtraction)
    (ka : String × List String) :
    (linePassMarker line e ka).lab_name = e.lab_name := by
  unfold linePassMarker linePassMarkerGo
  (repeat' split) <;> rfl

theorem fallbackMarker_lab (text : List Char) (e : BloodAnalysisExtraction)
    (ka : String × List String) :
    (fallbackMarker text e ka).lab_name = e.lab_name := by
  unfold fallbackMarker fallbackMarkerGo
  (repeat' split) <;> rfl

theorem combinedPass_lab (text : List Char) (e : BloodAnalysisExtraction) :
    (combinedPass text e).lab_name = e.lab_name := by
  unfold combinedPass
  refine foldl_keeps _ (fun e' : BloodAnalysisExtraction => e'.lab_name = e.lab_name) _ e ?_ rfl
  intro e' m _ he'
  rw [combinedApply_lab, he']

theorem linePass_lab (lines : List (List Char)) (e : BloodAnalysisExtraction) :
    (linePass lines e).lab_name = e.lab_name := by
  unfold linePass
  refine foldl_keeps _ (fun e' : BloodAnalysisExtraction => e'.lab_name = e.lab_name) _ e ?_ rfl
  intro e' line _ he'
  refine Eq.trans ?_ he'
  refine foldl_keeps _
    (fun e'' : BloodAnalysisExtraction => e''.lab_name = e'.lab_name) _ e' ?_ rfl
  intro e'' ka _ he''
  rw [linePassMarker_lab, he'']

theorem fallbackPass_lab (text : List Char) (e : BloodAnalysisExtraction) :
    (fallbackPass text e).lab_name = e.lab_name := by
  unfold fallbackPass
  refine foldl_keeps _ (fun e' : BloodAnalysisExtraction => e'.lab_name = e.lab_name) _ e ?_ rfl
  intro e' ka _ he'
  rw [fallbackMarker_lab, he']

/-- C10: the lab name of an extraction result is produced by
`_extract_lab_name` alone (the passes never touch it), and equals the first
of the five fixed lower-case pattern strings — `"invivo"`, `"олимп"`,
`"synlab"`, `"kdl"`, `"медицинская лаборатория"`, in that priority order —
that occurs case-insensitively anywhere in the text, `none` otherwise.  In
particular it is always one of those five strings, never the verbatim
spelling found in the source text. -/
theorem c10_lab_name_priority (text : String) :
    (extract text).lab_name = (if text = "" then none else extractLabName text.toList) ∧
    extractLabName text.toList =
      (if occursCI "invivo".toList text.toList then some "invivo"
       else if occursCI "олимп".toList text.toList then some "олимп"
       else if occursCI "synlab".toList text.toList then some "synlab"
       else if occursCI "kdl".toList text.toList then some "kdl"
       else if occursCI "медицинская лаборатория".toList text.toList then
         some "медицинская лаборатория"
       else none) := by
  constructor
  · unfold extract
    split
    · rfl
    · dsimp only
      rw [fallbackPass_lab, linePass_lab, combinedPass_lab]
  · unfold extractLabName labPatterns
    cases h1 : occursCI "invivo".toList text.toList <;>
      cases h2 : occursCI "олимп".toList text.toList <;>
      cases h3 : occursCI "synlab".toList text.toList <;>
      cases h4 : occursCI "kdl".toList text.toList <;>
      cases h5 : occursCI "медицинская лаборатория".toList text.toList <;>
      simp only [List.find?, h1, h2, h3, h4, h5] <;> rfl

/-- The marker slots iterated by `get_summary`: all dataclass fields except
the three metadata fields. -/
def markerFields : List String :=
  dataclassFields.filter fun f => decide (f ∉ metadataFields)

/-- Whether a marker slot counts as found: the slot is present and holds a
value. -/
def foundAt (e : BloodAnalysisExtraction) (f : String) : Bool :=
  match e.markers f with
  | some r => r.value.isSome
  | none => false

/-- The alert `get_summary` emits for one marker field, if any: one entry
per found marker whose status is out of range, severity `critical` for
`critical_low`/`critical_high` and `warning` for `low`/`high`. -/
def alertFor (e : BloodAnalysisExtraction) (f : String) : Option SummaryAlert :=
  match e.markers f with
  | some r =>
    match r.value with
    | some v =>
      if r.status = some "critical_low" || r.status = some "critical_high" then
        some ⟨f, v, r.unit, r.status, "critical"⟩
      else if r.status = some "low" || r.status = some "high" then
        some ⟨f, v, r.unit, r.status, "warning"⟩
      else none
    | none => none
  | none => none

theorem summaryStep_meta (e : BloodAnalysisExtraction) (acc : ℕ × ℕ × List SummaryAlert)
    (f : String) (hf : f ∈ metadataFields) : summaryStep e acc f = acc := by
  unfold summaryStep
  rw [if_pos hf]


theorem summaryStep_marker (e : BloodAnalysisExtraction) (acc : ℕ × ℕ × List SummaryAlert)
    (f : String) (hf : ¬ f ∈ metadataFields) :
    summaryStep e acc f =
      (acc.1 + 1,
       acc.2.1 + (if foundAt e f then 1 else 0),
       acc.2.2 ++ (alertFor e f).toList) := by
  unfold summaryStep foundAt alertFor
  rw [if_neg hf]
  cases hm : e.markers f with
  | none => simp
  | some r =>
    dsimp only
    cases hv : r.value with
    | none => simp
    | some v =>
      dsimp only
      (repeat' split) <;> simp_all

theorem summaryFold_spec (e : BloodAnalysisExtraction) :
    ∀ (fs : List String) (acc : ℕ × ℕ × List SummaryAlert),
      fs.foldl (summaryStep e) acc =
        (acc.1 + (fs.filter fun f => decide (f ∉ metadataFields)).length,
         acc.2.1 + ((fs.filter fun f => decide (f ∉ metadataFields)).filter (foundAt e)).length,
         acc.2.2 ++ (fs.filter fun f => decide (f ∉ metadataFields)).filterMap (alertFor e)) := by
  intro fs
  induction fs with
  | nil => intro acc; simp
  | cons f rest ih =>
    intro acc
    rw [List.foldl_cons]
    by_cases hf : f ∈ metadataFields
    · rw [summaryStep_meta e acc f hf, ih]
      simp [List.filter_cons, hf]
    · rw [summaryStep_marker e acc f hf, ih]
      cases hfd : foundAt e f <;> cases hal : alertFor e f <;>
        simp [List.filter_cons, List.filterMap_cons, hf, hfd, hal] <;> omega

/-- C6: the summary counts only marker slots (the metadata fields are
excluded); `found_markers` is the number of slots holding a value; the
alerts are exactly one entry per found marker whose status is out of range
(severity `critical` for `critical_low`/`critical_high`, `warning` for
`low`/`high`, in field order); `critical_count`/`warning_count` are the
numbers of alerts of each severity; and the extraction rate is
`found/total·100` rounded half-to-even to one decimal, or `0` when the total
is `0`. -/
theorem c6_summary_shape (e : BloodAnalysisExtraction) :
    (getSummary e).total_markers = markerFields.length ∧
    (getSummary e).found_markers = (markerFields.filter (foundAt e)).length ∧
    (getSummary e).alerts = markerFields.filterMap (alertFor e) ∧
    (getSummary e).extraction_rate =
      (if 0 < (getSummary e).total_markers then
        pyRound1 (mkRat ((getSummary e).found_markers * 100) (getSummary e).total_markers)
       else 0) ∧
    (getSummary e).critical_count
      = ((getSummary e).alerts.filter fun a => a.severity = "critical").length ∧
    (getSummary e).warning_count
      = ((getSummary e).alerts.filter fun a => a.severity = "warning").length := by
  unfold getSummary
  rw [summaryFold_spec e dataclassFields (0, 0, [])]
  dsimp only
  simp [markerFields]

theorem qscale_seven_tenths : qscale 7 1 = 0.7 := by
  rw [qscale_eq]
  norm_num

/-- The invariant every stored observation satisfies: a present value and a
confidence of exactly 1.0 or exactly 0.7. -/
def GoodSlot (r : MarkerResult) : Prop :=
  (∃ v, r.value = some v) ∧ (r.confidence = 1 ∨ r.confidence = 0.7)

def GoodExt (e : BloodAnalysisExtraction) : Prop :=
  ∀ k r, e.markers k = some r → GoodSlot r

theorem setMarker_good (k : String) (r : MarkerResult) (e : BloodAnalysisExtraction)
    (he : GoodExt e) (hr : GoodSlot r) : GoodExt (setMarker k r e) := by
  intro k' r' h
  unfold setMarker at h
  dsimp only at h
  by_cases hk : k' = k
  · rw [if_pos hk] at h
    cases h
    exact hr
  · rw [if_neg hk] at h
    exact he k' r' h

theorem addRefStatus_good (mr : MarkerResult) (key : String) (hmr : GoodSlot mr) :
    GoodSlot (addReferenceAndStatus mr key) := by
  obtain ⟨⟨v, hv⟩, hc⟩ := hmr
  refine ⟨⟨v, ?_⟩, ?_⟩
  · rw [addReferenceAndStatus_value, hv]
  · rw [addReferenceAndStatus_confidence]
    exact hc

theorem lineStored_good (line : List Char) (K : String) (m : AliasMatch) (v : ℚ) :
    GoodSlot (lineStored line K m v) :=
  ⟨⟨v, lineStored_value line K m v⟩, Or.inl (lineStored_confidence line K m v)⟩

theorem linePassMarkerGo_good (line : List Char) (e : BloodAnalysisExtraction)
    (ka : String × List String) (he : GoodExt e) : GoodExt (linePassMarkerGo line e ka) := by
  unfold linePassMarkerGo
  cases hs : aliasSearch (ka.2.map String.toList) line with
  | none => exact he
  | some m =>
    dsimp only
    cases hv : parseFloat m.valueStr with
    | none => exact he
    | some v =>
      dsimp only
      exact setMarker_good _ _ _ he (lineStored_good line ka.1 m v)

theorem linePassMarker_good (line : List Char) (e : BloodAnalysisExtraction)
    (ka : String × List String) (he : GoodExt e) : GoodExt (linePassMarker line e ka) := by
  unfold linePassMarker
  cases e.markers ka.1 with
  | none => exact linePassMarkerGo_good line e ka he
  | some ex =>
    dsimp only
    split
    · exact he
    · exact linePassMarkerGo_good line e ka he

theorem fallbackMarkerGo_good (text : List Char) (e : BloodAnalysisExtraction)
    (ka : String × List String) (he : GoodExt e) : GoodExt (fallbackMarkerGo text e ka) := by
  unfold fallbackMarkerGo
  cases hs : aliasSearch (ka.2.map String.toList) text with
  | none => exact he
  | some m =>
    dsimp only
    cases hv : parseFloat m.valueStr with
    | none => exact he
    | some v =>
      dsimp only
      refine setMarker_good _ _ _ he (addRefStatus_good _ _ ⟨⟨v, rfl⟩, Or.inr ?_⟩)
      exact qscale_seven_tenths

theorem fallbackMarker_good (text : List Char) (e : BloodAnalysisExtraction)
    (ka : String × List String) (he : GoodExt e) : GoodExt (fallbackMarker text e ka) := by
  unfold fallbackMarker
  cases e.markers ka.1 with
  | none => exact fallbackMarkerGo_good text e ka he
  | some ex =>
    dsimp only
    split
    · exact he
    · exact fallbackMarkerGo_good text e ka he

theorem combinedApply_good (e : BloodAnalysisExtraction) (m : AltAstMatch)
    (he : GoodExt e) : GoodExt (combinedApply e m) := by
  unfold combinedApply
  have step : ∀ (e' : BloodAnalysisExtraction), GoodExt e' →
      ∀ (key : String) (vs : List Char), GoodExt
        (match parseFloat vs with
         | some v =>
           setMarker key (addReferenceAndStatus
             { value := some v, unit := some "U/L", confidence := 1,
               raw_text := some (String.mk m.group0) } key) e'
         | none => e') := by
    intro e' he' key vs
    cases parseFloat vs with
    | none => exact he'
    | some v =>
      exact setMarker_good _ _ _ he' (addRefStatus_good _ _ ⟨⟨v, rfl⟩, Or.inl rfl⟩)
  exact step _ (step e he "alt" m.altStr) "ast" m.astStr

theorem extract_good (text : String) : GoodExt (extract text) := by
  have hinit : ∀ (ln dt : Option String), GoodExt
      { initialExtraction with lab_name := ln, analysis_date := dt } := by
    intro ln dt k r h
    exact absurd h (by simp [initialExtraction])
  unfold extract
  split
  · intro k r h
    exact absurd h (by simp [initialExtraction])
  · dsimp only
    refine foldl_keeps _ GoodExt _ _ ?_ ?_
    · intro e' ka _ he'
      exact fallbackMarker_good _ e' ka he'
    · refine foldl_keeps _ GoodExt _ _ ?_ ?_
      · intro e' line _ he'
        refine foldl_keeps _ GoodExt _ _ ?_ he'
        intro e'' ka _ he''
        exact linePassMarker_good line e'' ka he''
      · refine foldl_keeps _ GoodExt _ _ ?_ (hinit _ _)
        intro e' mm _ he'
        exact combinedApply_good e' mm he'

theorem filter_congr_same {α : Type} (p q : α → Bool) :
    ∀ (l : List α), (∀ a ∈ l, p a = q a) → l.filter p = l.filter q
  | [], _ => rfl
  | a :: t, h => by
    have ht := filter_congr_same p q t (fun a' ha' => h a' (List.mem_cons_of_mem a ha'))
    have ha := h a (List.mem_cons_self a t)
    simp only [List.filter_cons, ha, ht]

/-- C9: every marker slot of an extraction result is either absent or holds
an observation with a successfully parsed value (never `None`) and a
confidence of exactly 1.0 or exactly 0.7; consequently the summary's
`found_markers` equals the number of non-absent marker slots. -/
theorem c9_marker_invariant (text : String) :
    (∀ k r, (extract text).markers k = some r →
      (∃ v, r.value = some v) ∧ (r.confidence = 1 ∨ r.confidence = 0.7)) ∧
    (getSummary (extract text)).found_markers
      = (markerFields.filter fun f => ((extract text).markers f).isSome).length := by
  have hg := extract_good text
  constructor
  · exact hg
  · have hfc : markerFields.filter (foundAt (extract text))
        = markerFields.filter fun f => ((extract text).markers f).isSome := by
      refine filter_congr_same _ _ markerFields (fun f _ => ?_)
      unfold foundAt
      cases hm : (extract text).markers f with
      | none => rfl
      | some r =>
        obtain ⟨⟨v, hv⟩, _⟩ := hg f r hm
        simp [hv]
    rw [← hfc]
    unfold getSummary
    rw [summaryFold_spec (extract text) dataclassFields (0, 0, [])]
    dsimp only
    simp [markerFields]

set_option maxRecDepth 1000000 in
set_option maxHeartbeats 4000000 in
/-- Witness for C9 at the concrete text `"hb 10"` and slot `hemoglobin`. -/
theorem c9_marker_invariant_witness :
    (∃ v, ({ value := some 10, unit := some "g/L", reference_min := some 120,
             reference_max := some 160, status := some "critical_low", confidence := 1,
             raw_text := some "hb 10" } : MarkerResult).value = some v) ∧
    (({ value := some 10, unit := some "g/L", reference_min := some 120,
        reference_max := some 160, status := some "critical_low", confidence := 1,
        raw_text := some "hb 10" } : MarkerResult).confidence = 1 ∨
     ({ value := some 10, unit := some "g/L", reference_min := some 120,
        reference_max := some 160, status := some "critical_low", confidence := 1,
        raw_text := some "hb 10" } : MarkerResult).confidence = 0.7) :=
  (c9_marker_invariant "hb 10").1 "hemoglobin"
    { value := some 10, unit := some "g/L", reference_min := some 120,
      reference_max := some 160, status := some "critical_low", confidence := 1,
      raw_text := some "hb 10" } (by decide)

theorem rowStepRef_valueUnit (st : RowState) (c : String) :
    (rowStepRef st c).value = st.value ∧ (rowStepRef st c).unit = st.unit := by
  unfold rowStepRef
  (repeat' split) <;> exact ⟨rfl, rfl⟩

theorem rowFold_keep : ∀ (cells : List String) (st : RowState) (v : ℚ),
    st.value = some v →
    (cells.foldl rowStep st).value = some v ∧ (cells.foldl rowStep st).unit = st.unit := by
  intro cells
  induction cells with
  | nil => exact fun _ _ hv => ⟨hv, rfl⟩
  | cons cell rest ih =>
    intro st v hv
    rw [List.foldl_cons]
    have hstep : (rowStep st cell).value = some v ∧ (rowStep st cell).unit = st.unit := by
      unfold rowStep
      dsimp only
      split
      · exact ⟨hv, rfl⟩
      · cases hn : rowNumMatch (pyStripS cell) with
        | some p =>
          dsimp only
          rw [if_neg (by rw [hv]; simp)]
          exact ⟨(rowStepRef_valueUnit st (pyStripS cell)).1.trans hv,
                 (rowStepRef_valueUnit st (pyStripS cell)).2⟩
        | none =>
          exact ⟨(rowStepRef_valueUnit st (pyStripS cell)).1.trans hv,
                 (rowStepRef_valueUnit st (pyStripS cell)).2⟩
    obtain ⟨h1, h2⟩ := hstep
    obtain ⟨h3, h4⟩ := ih (rowStep st cell) v h1
    exact ⟨h3, h4.trans h2⟩

theorem rowFold_first : ∀ (cells : List String) (st : RowState),
    st.value = none → st.unit = none →
    (cells.foldl rowStep st).value
      = ((cells.map pyStripS).findSome? rowNumMatch).map Prod.fst ∧
    (cells.foldl rowStep st).unit
      = ((cells.map pyStripS).findSome? rowNumMatch).bind Prod.snd := by
  intro cells
  induction cells with
  | nil =>
    intro st hv hu
    exact ⟨hv, hu⟩
  | cons cell rest ih =>
    intro st hv hu
    rw [List.foldl_cons, List.map_cons]
    by_cases hc : pyStripS cell = ""
    · have hstep : rowStep st cell = st := by
        unfold rowStep
        rw [if_pos hc]
      have hnm : rowNumMatch (pyStripS cell) = none := by
        rw [hc]
        rfl
      rw [hstep]
      obtain ⟨h1, h2⟩ := ih st hv hu
      rw [h1, h2]
      simp [List.findSome?_cons, hnm]
    · cases hn : rowNumMatch (pyStripS cell) with
      | some p =>
        obtain ⟨pv, pu⟩ := p
        have hstep : rowStep st cell = { st with value := some pv, unit := pu } := by
          unfold rowStep
          rw [if_neg hc]
          rw [hn]
          dsimp only
          rw [if_pos hv]
        rw [hstep]
        obtain ⟨h3, h4⟩ := rowFold_keep rest { st with value := some pv, unit := pu } pv rfl
        rw [h3, h4]
        simp [List.findSome?_cons, hn]
      | none =>
        have hstep : rowStep st cell = rowStepRef st (pyStripS cell) := by
          unfold rowStep
          rw [if_neg hc]
          rw [hn]
        rw [hstep]
        have hpr := rowStepRef_valueUnit st (pyStripS cell)
        obtain ⟨h1, h2⟩ := ih (rowStepRef st (pyStripS cell)) (hpr.1.trans hv) (hpr.2.trans hu)
        rw [h1, h2]
        simp [List.findSome?_cons, hn]

set_option maxRecDepth 1000000 in
set_option maxHeartbeats 4000000 in
/-- C7: in `parse_lab_row`, the value and unit come from the first cell (in
row order, after stripping) matching the pure-measurement shape — later
numeric-looking cells can never become the value and instead fall through to
the reference-data attempts; a row parses to an observation exactly when both
a marker name and a value were found; and the concrete row
`["Гемоглобин", "140 г/л", "120-160"]` parses to name `"Гемоглобин"`,
value 140.0, unit `"г/л"`, reference bounds (120.0, 160.0). -/
theorem c7_parse_lab_row :
    (∀ row : List String,
       ((row.foldl rowStep {}).value
         = ((row.map pyStripS).findSome? rowNumMatch).map Prod.fst) ∧
       ((row.foldl rowStep {}).unit
         = ((row.map pyStripS).findSome? rowNumMatch).bind Prod.snd) ∧
       (2 ≤ row.length →
         ((parseLabRow row).isSome ↔
           ((row.foldl rowStep {}).name.isSome ∧ (row.foldl rowStep {}).value.isSome)))) ∧
    parseLabRow ["Гемоглобин", "140 г/л", "120-160"]
      = some ⟨"Гемоглобин", 140, some "г/л", some 120, some 160⟩ := by
  constructor
  · intro row
    obtain ⟨h1, h2⟩ := rowFold_first row {} rfl rfl
    refine ⟨h1, h2, ?_⟩
    intro hlen
    unfold parseLabRow
    rw [if_neg (by omega)]
    dsimp only
    cases hname : (row.foldl rowStep {}).name <;>
      cases hval : (row.foldl rowStep {}).value <;>
      simp [hname, hval]
  · decide

/-- Witness for C7: the if-and-only-if clause applied at the concrete
three-cell row. -/
theorem c7_parse_lab_row_witness :
    (parseLabRow ["Гемоглобин", "140 г/л", "120-160"]).isSome ↔
      ((["Гемоглобин", "140 г/л", "120-160"].foldl rowStep {}).name.isSome ∧
       (["Гемоглобин", "140 г/л", "120-160"].foldl rowStep {}).value.isSome) :=
  (c7_parse_lab_row.1 ["Гемоглобин", "140 г/л", "120-160"]).2.2 (by norm_num)
